import Mathlib

/-!
# Verification of the toggle-counter + analytics-reconciliation engine

Shallow embedding of the voting and analytics logic of `script.js` from the
blender-portfolio repository.  JavaScript numbers on the counter paths are
modelled as `Int` (all arithmetic performed by the code is integer arithmetic:
`+ 1`, `- 1`, `Math.max(0, ·)`).  The remote Firebase store is modelled as an
explicit record of its relevant paths; the browser `localStorage` cache and
the per-button UI state are modelled alongside it.  Every `fetch` that may
fail is given an explicit success/failure flag drawn from a `Faults` record,
reproducing exactly the `try`/`catch` and `response.ok` fallback behaviour of
the source: none of the helper functions rethrows, each falls back the way
the source does.
-/

/-- A JSON value as it can appear at a `votes/{subject}/count` path.
`script.js` (`getCount`, lines 442-456) dispatches on three shapes:
`null` (absent path), a plain number (current schema), or an object with an
optional numeric `count` field (historical schema). -/
inductive JVal where
  | vnull : JVal
  | vnum (n : Int) : JVal
  | vobj (count : Option Int) : JVal
deriving DecidableEq

/-- JavaScript `x || 0` on a number: `0` (falsy) maps to `0`, everything else
to itself. -/
def orZero (n : Int) : Int := if n = 0 then 0 else n

/-- The schema dispatch inside `getCount`:
`if (typeof data === 'object' && data !== null) return data.count || 0;
 return data || 0;`. -/
def countOfVal : JVal → Int
  | JVal.vnull => 0
  | JVal.vnum n => orZero n
  | JVal.vobj c =>
    match c with
    | some n => orZero n
    | none => 0

/-- `getCount` (script.js lines 442-456).  `readOk = false` models the
`catch` branch (network error or thrown `!response.ok`), which falls back to
`parseInt(localStorage.getItem(...)) || 0`, modelled as `cached.getD 0`.
On success the remote value is interpreted by the schema dispatch. -/
def getCount (readOk : Bool) (remote : JVal) (cached : Option Int) : Int :=
  if readOk then countOfVal remote else (cached.getD 0)

/-- Pointwise update of a string-keyed map, the effect of a Firebase `PUT`
at one path of a map node. -/
def upd {α : Type} (k : String) (v : α) (f : String → α) : String → α :=
  fun q => if q = k then v else f q

/-- `PUT` of a boolean at `votes/{subject}/voters/{key}`: overwrite the entry
if the key exists, otherwise create it.  An association list keeps the
distinction between an absent entry and an explicit `false` entry, which the
reset flow (and the spec's data model) relies on. -/
def setVoter (key : String) (b : Bool) : List (String × Bool) → List (String × Bool)
  | [] => [(key, b)]
  | (k, v) :: rest => if k = key then (k, b) :: rest else (k, v) :: setVoter key b rest

/-- The remote Firebase Realtime Database paths used by the engine:
`votes/{subject}/count`, `votes/{subject}/voters/{identity}` and the
per-day analytics counters under `analytics/events/{date}/...` (one fixed
day, since every operation uses `getTodayDate()`). -/
structure Store where
  counts : String → JVal
  voters : String → List (String × Bool)
  total_visits : Option Int
  project_views : String → Option Int
  upvotes : String → Option Int
  upvote_events : String → Option Int
  unvote_events : String → Option Int
  session_duration : String → Option Int

/-- The browser `localStorage` entries the engine uses:
`upvote_count_{subject}` and `upvote_{subject}`. -/
structure Cache where
  countCache : String → Option Int
  votedCache : String → Option Bool

/-- The user-visible state of one upvote button: the `voted` class /
heart-icon state, and the displayed `vote-count` text. -/
structure UI where
  uiVoted : String → Bool
  uiCount : String → Int

/-- Full system state: remote store, local cache, button UI. -/
structure Sys where
  store : Store
  cache : Cache
  ui : UI

/-- Success/failure of each remote operation a single toggle performs.
`true` means the corresponding `fetch` fails (rejects or `!response.ok`). -/
structure Faults where
  voterReadFail : Bool
  countReadFail : Bool
  countWriteFail : Bool
  voterWriteFail : Bool
  syncWriteFail : Bool
deriving DecidableEq

/-- The all-success profile: every remote read and write succeeds. -/
def noFaults : Faults :=
  { voterReadFail := false, countReadFail := false, countWriteFail := false
    voterWriteFail := false, syncWriteFail := false }

/-- `sanitizeIP` (script.js lines 373-375): `ip.replace(/\./g, '_')` —
replace every period with an underscore, leave all other characters. -/
def sanitizeIP (ip : String) : String :=
  String.mk (ip.data.map (fun c => if c = '.' then '_' else c))

/-- `hasVotedOnServer` (script.js lines 389-403): on a successful read the
result is `data === true` for the stored voter entry (absent or `false`
both mean "not voted"); on failure the `catch` falls back to
`localStorage.getItem('upvote_' + p) === 'true'`. -/
def hasVotedOnServer (f : Faults) (p key : String) (s : Sys) : Bool :=
  if f.voterReadFail then
    match s.cache.votedCache p with
    | some b => b
    | none => false
  else
    match (s.store.voters p).lookup key with
    | some b => b
    | none => false

/-- `getCount` applied to the system state for subject `p`. -/
def getCountS (f : Faults) (p : String) (s : Sys) : Int :=
  getCount (!f.countReadFail) (s.store.counts p) (s.cache.countCache p)

/-- `setCount` (script.js lines 459-474): on success the remote count path
is overwritten with the number; on failure the `catch` writes the value to
`localStorage` instead and the remote store is unchanged.  Never throws. -/
def setCountS (f : Faults) (p : String) (n : Int) (s : Sys) : Sys :=
  if f.countWriteFail then
    { s with cache := { s.cache with countCache := upd p (some n) s.cache.countCache } }
  else
    { s with store := { s.store with counts := upd p (JVal.vnum n) s.store.counts } }

/-- `incrementCount` (script.js lines 477-482): read, add one, write, return
the new count. -/
def incrementCountS (f : Faults) (p : String) (s : Sys) : Sys × Int :=
  let currentCount := getCountS f p s
  let newCount := currentCount + 1
  (setCountS f p newCount s, newCount)

/-- `decrementCount` (script.js lines 485-490): read, subtract one clamped
at zero (`Math.max(0, currentCount - 1)`), write, return the new count. -/
def decrementCountS (f : Faults) (p : String) (s : Sys) : Sys × Int :=
  let currentCount := getCountS f p s
  let newCount := max 0 (currentCount - 1)
  (setCountS f p newCount s, newCount)

/-- `setVoterState` (script.js lines 420-437): on success overwrite
`votes/{p}/voters/{key}` with the boolean; on failure the `catch` returns
`false` and nothing changes.  Never throws. -/
def setVoterStateS (f : Faults) (p key : String) (b : Bool) (s : Sys) : Sys :=
  if f.voterWriteFail then s
  else { s with store := { s.store with voters := upd p (setVoter key b (s.store.voters p)) s.store.voters } }

/-- `syncUpvoteAnalyticsCount` (script.js lines 184-214): overwrite the
day's `upvotes/{p}` with `Math.max(0, count)`; on write failure (or a
thrown error) return `null` and change nothing.  Never throws. -/
def syncUpvoteAnalyticsCount (writeOk : Bool) (p : String) (count : Int) (st : Store) : Store :=
  let nextValue := max 0 count
  if writeOk then { st with upvotes := upd p (some nextValue) st.upvotes }
  else st

/-- The map-shaped per-day analytics event families that
`logCustomAnalyticsEvent` can address via its `eventType` argument. -/
inductive EventType where
  | project_views
  | upvotes
  | upvote_events
  | unvote_events
  | session_duration
deriving DecidableEq

/-- Read the analytics counter at `analytics/events/{today}/{ty}/{p}`. -/
def readEvent (ty : EventType) (st : Store) (p : String) : Option Int :=
  match ty with
  | EventType.project_views => st.project_views p
  | EventType.upvotes => st.upvotes p
  | EventType.upvote_events => st.upvote_events p
  | EventType.unvote_events => st.unvote_events p
  | EventType.session_duration => st.session_duration p

/-- Write the analytics counter at `analytics/events/{today}/{ty}/{p}`. -/
def writeEvent (ty : EventType) (p : String) (v : Option Int) (st : Store) : Store :=
  match ty with
  | EventType.project_views => { st with project_views := upd p v st.project_views }
  | EventType.upvotes => { st with upvotes := upd p v st.upvotes }
  | EventType.upvote_events => { st with upvote_events := upd p v st.upvote_events }
  | EventType.unvote_events => { st with unvote_events := upd p v st.unvote_events }
  | EventType.session_duration => { st with session_duration := upd p v st.session_duration }

/-- `logCustomAnalyticsEvent` (script.js lines 131-176): read the current
value (`(await response.json()) || 0`, `null` giving `0`), compute
`Math.max(0, currentCount + delta)`, write it back.  A failed read
(`!response.ok`) returns early; a failed write only warns; any thrown error
is caught and swallowed.  Never throws, never touches the vote ledger. -/
def logCustomAnalyticsEvent (readOk writeOk : Bool) (ty : EventType) (p : String)
    (delta : Int) (st : Store) : Store :=
  if !readOk then st
  else
    let currentCount := (readEvent ty st p).getD 0
    let nextValue := max 0 (currentCount + delta)
    if !writeOk then st
    else writeEvent ty p (some nextValue) st

/-- `logPageVisit` (script.js lines 220-245): read
`analytics/events/{today}/total_visits` (`null` giving `0`), write
`currentCount + 1`.  A failed read returns early, a failed write only
warns, any thrown error is caught.  Never throws, never touches the vote
ledger. -/
def logPageVisit (readOk writeOk : Bool) (st : Store) : Store :=
  if !readOk then st
  else
    let currentCount := st.total_visits.getD 0
    if !writeOk then st
    else { st with total_visits := some (currentCount + 1) }

/-- The upvote-button click handler (script.js lines 616-669), after the
button is disabled.  `ip?` is the result of `getUserIP()`: `none` aborts
with an alert and no state change.  Otherwise:
read the server voter state, flip it, optimistically update the UI,
increment or decrement the count, write the voter state, resynchronize the
day's `upvotes` analytics counter, then update `localStorage` and the
displayed count.  None of the helpers throws on a remote failure (each
falls back internally), so the handler's `catch`/revert branch is never
taken for remote-store faults and the post-steps always run. -/
def clickToggle (f : Faults) (p : String) (ip? : Option String) (s : Sys) : Sys :=
  match ip? with
  | none => s
  | some ip =>
    let key := sanitizeIP ip
    let serverSaysVoted := hasVotedOnServer f p key s
    let targetVotedState := !serverSaysVoted
    let s1 : Sys :=
      { s with ui := { s.ui with uiVoted := upd p targetVotedState s.ui.uiVoted } }
    let r : Sys × Int :=
      if targetVotedState then incrementCountS f p s1 else decrementCountS f p s1
    let s2 := r.1
    let newCount := r.2
    let s3 := setVoterStateS f p key targetVotedState s2
    let s4 : Sys :=
      { s3 with store := syncUpvoteAnalyticsCount (!f.syncWriteFail) p newCount s3.store }
    { s4 with
      cache :=
        { countCache := upd p (some newCount) s4.cache.countCache
          votedCache := upd p (some targetVotedState) s4.cache.votedCache }
      ui := { s4.ui with uiCount := upd p newCount s4.ui.uiCount } }

/-- A fully successful toggle by identity `ip` on subject `p`. -/
def goodToggle (p ip : String) (s : Sys) : Sys :=
  clickToggle noFaults p (some ip) s

/-- The known project list (script.js line 78). -/
def PROJECTS : List String :=
  ["dungeon", "rocketship", "ak47", "awp", "pizza", "mouse", "house", "lighthouse"]

/-- Fold a per-key write over a list of keys (the effect of the reset
loops over `PROJECTS`). -/
def updAll {α : Type} (keys : List String) (v : α) (g : String → α) : String → α :=
  keys.foldl (fun acc k => upd k v acc) g

/-- Set every existing voter entry of a subject to `false`
(the `Object.keys(voters)` loop of the reset flow): keys are preserved,
no entry is deleted. -/
def votersAllFalse (l : List (String × Bool)) : List (String × Bool) :=
  l.map (fun kv => (kv.1, false))

/-- `resetDemoDataIfRequested` (script.js lines 493-552), success path.
Gate: it does nothing unless the `resetDemo` query parameter equals
`"true"`.  When it runs it writes `0` to today's `total_visits` and, for
each project in `PROJECTS`, to `project_views`, `upvotes`,
`session_duration` and the vote `count`, and overwrites every existing
voter entry with `false` (never deleting it).  It touches no other path:
in particular `upvote_events` and `unvote_events` are left as they are. -/
def resetDemoDataIfRequested (resetParam : Option String) (st : Store) : Store :=
  if resetParam ≠ some "true" then st
  else
    { st with
      total_visits := some 0
      project_views := updAll PROJECTS (some 0) st.project_views
      upvotes := updAll PROJECTS (some 0) st.upvotes
      session_duration := updAll PROJECTS (some 0) st.session_duration
      counts := updAll PROJECTS (JVal.vnum 0) st.counts
      voters := PROJECTS.foldl (fun acc k => upd k (votersAllFalse (acc k)) acc) st.voters }

/-- The observed voter boolean of identity key `key` on subject `p`
(absent and explicit `false` both read as "not voted"). -/
def votedOnS (s : Sys) (p key : String) : Bool :=
  match (s.store.voters p).lookup key with
  | some b => b
  | none => false

/-- The observable pair a toggle acts on: the interpreted stored count and
the identity's observed voter boolean. -/
def obs (p key : String) (s : Sys) : Int × Bool :=
  (countOfVal (s.store.counts p), votedOnS s p key)

/-- The step the success-path toggle induces on the observable pair. -/
def toggleStep (cv : Int × Bool) : Int × Bool :=
  (if cv.2 then max 0 (cv.1 - 1) else cv.1 + 1, !cv.2)

/-- A fresh system state: every remote path absent, empty caches,
all buttons unvoted showing zero. -/
def sys0 : Sys :=
  { store :=
      { counts := fun _ => JVal.vnull
        voters := fun _ => []
        total_visits := none
        project_views := fun _ => none
        upvotes := fun _ => none
        upvote_events := fun _ => none
        unvote_events := fun _ => none
        session_duration := fun _ => none }
    cache := { countCache := fun _ => none, votedCache := fun _ => none }
    ui := { uiVoted := fun _ => false, uiCount := fun _ => 0 } }

/-- The Firebase-forbidden key characters: `. $ # [ ] /`. -/
def forbiddenKeyChars : List Char := ['.', '$', '#', '[', ']', '/']

/-- A string is store-safe when it contains no forbidden key character. -/
def storeSafe (s : String) : Prop :=
  ∀ c ∈ s.data, c ∉ forbiddenKeyChars

instance (s : String) : Decidable (storeSafe s) := by
  unfold storeSafe; infer_instance

/-- A string free of underscores (the replacement character). -/
def underscoreFree (s : String) : Prop :=
  '_' ∉ s.data

instance (s : String) : Decidable (underscoreFree s) := by
  unfold underscoreFree; infer_instance

/-- The floor invariant of the vote ledger for one subject: both the
interpreted remote count and the locally cached count are non-negative. -/
def countInv (p : String) (s : Sys) : Prop :=
  0 ≤ countOfVal (s.store.counts p) ∧ 0 ≤ (s.cache.countCache p).getD 0

instance (p : String) (s : Sys) : Decidable (countInv p s) := by
  unfold countInv; infer_instance

/-- "Absent or a non-negative integer", the numeric precondition and
postcondition of the analytics counters (reads use `(... ) || 0`, so the
relevant quantity is the value with absent defaulted to `0`). -/
def nn (o : Option Int) : Prop := 0 ≤ o.getD 0

instance (o : Option Int) : Decidable (nn o) := by unfold nn; infer_instance

/-- Fault profile where only the count read (`getCount`'s fetch) fails. -/
def faultCountRead : Faults := { noFaults with countReadFail := true }

/-- Fault profile where only the count write (`setCount`'s fetch) fails. -/
def faultCountWrite : Faults := { noFaults with countWriteFail := true }

/-- Concrete state for the C3 counterexample: remote count of "dungeon" is
3, the locally cached count is stale at 7, nobody has voted, button
unvoted. -/
def sysReadFailDemo : Sys :=
  { sys0 with
    store := { sys0.store with counts := upd "dungeon" (JVal.vnum 3) sys0.store.counts }
    cache := { sys0.cache with countCache := upd "dungeon" (some 7) sys0.cache.countCache } }

/-- Concrete state for the C5 counterexample: stored count 0 while the
identity's voter flag is `true` (a state the clamped decrement cannot
undo symmetrically). -/
def sysZeroVoted : Sys :=
  { sys0 with
    store :=
      { sys0.store with
        counts := upd "dungeon" (JVal.vnum 0) sys0.store.counts
        voters := upd "dungeon" [("1_2_3_4", true)] sys0.store.voters } }

/-- Concrete store for the C6 counterexample: today's
`upvote_events/dungeon` counter holds 5. -/
def storeEvents5 : Store :=
  { sys0.store with upvote_events := upd "dungeon" (some 5) sys0.store.upvote_events }

/-!
## Helper lemmas
-/

lemma orZero_self (n : Int) : orZero n = n := by
  by_cases h : n = 0 <;> simp [orZero, h]

lemma countOfVal_vnum (n : Int) : countOfVal (JVal.vnum n) = n := by
  simp [countOfVal, orZero_self]

lemma lookup_setVoter_self (key : String) (b : Bool) (l : List (String × Bool)) :
    (setVoter key b l).lookup key = some b := by
  induction l with
  | nil => simp [setVoter, List.lookup]
  | cons kv rest ih =>
    obtain ⟨k, v⟩ := kv
    by_cases h : k = key
    · simp [setVoter, h, List.lookup]
    · have hk : (key == k) = false := beq_eq_false_iff_ne.mpr (Ne.symm h)
      simp [setVoter, h, List.lookup, hk, ih]

lemma updAll_apply {α : Type} (keys : List String) (v : α) (g : String → α) (p : String) :
    updAll keys v g p = if p ∈ keys then v else g p := by
  induction keys generalizing g with
  | nil => simp [updAll]
  | cons k rest ih =>
    show updAll rest v (upd k v g) p = _
    rw [ih]
    by_cases hpk : p = k
    · subst hpk; by_cases hr : p ∈ rest <;> simp [hr, upd]
    · simp [upd, hpk]

lemma votersAllFalse_idem (l : List (String × Bool)) :
    votersAllFalse (votersAllFalse l) = votersAllFalse l := by
  simp [votersAllFalse, List.map_map]

lemma foldVoters_apply (keys : List String) (g : String → List (String × Bool)) (p : String) :
    (keys.foldl (fun acc k => upd k (votersAllFalse (acc k)) acc) g) p
      = if p ∈ keys then votersAllFalse (g p) else g p := by
  induction keys generalizing g with
  | nil => simp
  | cons k rest ih =>
    simp only [List.foldl_cons]
    rw [ih]
    by_cases hpk : p = k
    · subst hpk
      by_cases hr : p ∈ rest <;> simp [hr, upd, votersAllFalse_idem]
    · simp [upd, hpk, hpk]

lemma hasVoted_noFaults (p key : String) (s : Sys) :
    hasVotedOnServer noFaults p key s = votedOnS s p key := rfl

lemma noFaults_countReadFail : noFaults.countReadFail = false := rfl

lemma noFaults_countWriteFail : noFaults.countWriteFail = false := rfl

lemma noFaults_voterWriteFail : noFaults.voterWriteFail = false := rfl

lemma noFaults_syncWriteFail : noFaults.syncWriteFail = false := rfl

lemma goodToggle_step (p ip : String) (s : Sys) :
    (goodToggle p ip s).store.counts p
        = JVal.vnum ((toggleStep (obs p (sanitizeIP ip) s)).1)
  ∧ (goodToggle p ip s).store.upvotes p
        = some (max 0 ((toggleStep (obs p (sanitizeIP ip) s)).1))
  ∧ (goodToggle p ip s).store.voters p
        = setVoter (sanitizeIP ip) ((toggleStep (obs p (sanitizeIP ip) s)).2) (s.store.voters p) := by
  cases hv : votedOnS s p (sanitizeIP ip) <;>
    simp [goodToggle, clickToggle, hasVoted_noFaults, hv, incrementCountS, decrementCountS,
          getCountS, getCount, setCountS, setVoterStateS, syncUpvoteAnalyticsCount,
          noFaults_countReadFail, noFaults_countWriteFail, noFaults_voterWriteFail,
          noFaults_syncWriteFail, upd, obs, toggleStep]

lemma obs_goodToggle (p ip : String) (s : Sys) :
    obs p (sanitizeIP ip) (goodToggle p ip s) = toggleStep (obs p (sanitizeIP ip) s) := by
  obtain ⟨h1, _h2, h3⟩ := goodToggle_step p ip s
  simp [obs, votedOnS, h1, h3, countOfVal_vnum, lookup_setVoter_self, toggleStep]

lemma obs_goodToggle_iter (p ip : String) (s : Sys) (n : Nat) :
    obs p (sanitizeIP ip) ((goodToggle p ip)^[n] s)
      = (toggleStep)^[n] (obs p (sanitizeIP ip) s) := by
  induction n with
  | zero => rfl
  | succ m ih => simp [Function.iterate_succ_apply', ih, obs_goodToggle]

lemma toggleStep_nonneg (cv : Int × Bool) (h : 0 ≤ cv.1) : 0 ≤ (toggleStep cv).1 := by
  cases hb : cv.2 <;> simp [toggleStep, hb] <;> omega

lemma toggleStep_iter_nonneg (cv : Int × Bool) (h : 0 ≤ cv.1) (n : Nat) :
    0 ≤ ((toggleStep)^[n] cv).1 := by
  induction n with
  | zero => exact h
  | succ m ih => rw [Function.iterate_succ_apply']; exact toggleStep_nonneg _ ih

lemma toggleStep_pair (c : Int) (v : Bool) (h0 : 0 ≤ c) (h1 : v = true → 1 ≤ c) :
    toggleStep (toggleStep (c, v)) = (c, v) := by
  cases v
  · simp [toggleStep]
    omega
  · have hc : 1 ≤ c := h1 rfl
    simp [toggleStep]
    omega

lemma toggleStep_iter_pairs (cv : Int × Bool) (h0 : 0 ≤ cv.1) (h1 : cv.2 = true → 1 ≤ cv.1)
    (n : Nat) : (toggleStep)^[2 * n] cv = cv := by
  induction n with
  | zero => rfl
  | succ m ih =>
    have h2 : 2 * (m + 1) = 2 * m + 2 := by ring
    rw [h2, Function.iterate_add_apply]
    obtain ⟨c, v⟩ := cv
    rw [show (toggleStep)^[2] (c, v) = toggleStep (toggleStep (c, v)) from rfl,
        toggleStep_pair c v h0 h1, ih]

lemma goodToggle_iter_count_nonneg (p ip : String) (s : Sys) (n : Nat)
    (h0 : 0 ≤ countOfVal (s.store.counts p)) :
    0 ≤ countOfVal (((goodToggle p ip)^[n] s).store.counts p) := by
  have h := obs_goodToggle_iter p ip s n
  have h2 := toggleStep_iter_nonneg (obs p (sanitizeIP ip) s) h0 n
  calc 0 ≤ ((toggleStep)^[n] (obs p (sanitizeIP ip) s)).1 := h2
    _ = (obs p (sanitizeIP ip) ((goodToggle p ip)^[n] s)).1 := by rw [h]
    _ = _ := rfl

lemma clickToggle_count_shape (f : Faults) (p ip : String) (s : Sys) :
    ∃ newCount : Int,
      (newCount = getCountS f p s + 1 ∨ newCount = max 0 (getCountS f p s - 1))
    ∧ (clickToggle f p (some ip) s).store.counts p
        = (if f.countWriteFail then s.store.counts p else JVal.vnum newCount)
    ∧ (clickToggle f p (some ip) s).cache.countCache p = some newCount := by
  obtain ⟨vr, cr, cw, vw, sw⟩ := f
  cases hv : hasVotedOnServer ⟨vr, cr, cw, vw, sw⟩ p (sanitizeIP ip) s
  · refine ⟨getCountS ⟨vr, cr, cw, vw, sw⟩ p s + 1, Or.inl rfl, ?_, ?_⟩ <;>
      cases cw <;> cases vw <;> cases sw <;>
        simp [clickToggle, hv, incrementCountS, decrementCountS, getCountS, getCount,
              setCountS, setVoterStateS, syncUpvoteAnalyticsCount, upd]
  · refine ⟨max 0 (getCountS ⟨vr, cr, cw, vw, sw⟩ p s - 1), Or.inr rfl, ?_, ?_⟩ <;>
      cases cw <;> cases vw <;> cases sw <;>
        simp [clickToggle, hv, incrementCountS, decrementCountS, getCountS, getCount,
              setCountS, setVoterStateS, syncUpvoteAnalyticsCount, upd]

lemma getCountS_nonneg (f : Faults) (p : String) (s : Sys) (h : countInv p s) :
    0 ≤ getCountS f p s := by
  obtain ⟨h1, h2⟩ := h
  unfold getCountS getCount
  cases f.countReadFail <;> simpa

lemma clickToggle_countInv (f : Faults) (p : String) (ip? : Option String) (s : Sys)
    (h : countInv p s) : countInv p (clickToggle f p ip? s) := by
  cases ip? with
  | none => exact h
  | some ip =>
    obtain ⟨newCount, hshape, hcounts, hcache⟩ := clickToggle_count_shape f p ip s
    have hc : 0 ≤ getCountS f p s := getCountS_nonneg f p s h
    have hnn : 0 ≤ newCount := by rcases hshape with h' | h' <;> omega
    constructor
    · rw [hcounts]
      cases f.countWriteFail
      · simpa [countOfVal_vnum]
      · simpa using h.1
    · simp [hcache, hnn]

lemma clickToggle_events_unchanged (f : Faults) (p : String) (ip? : Option String) (s : Sys) :
    (clickToggle f p ip? s).store.upvote_events = s.store.upvote_events
  ∧ (clickToggle f p ip? s).store.unvote_events = s.store.unvote_events := by
  cases ip? with
  | none => exact ⟨rfl, rfl⟩
  | some ip =>
    obtain ⟨vr, cr, cw, vw, sw⟩ := f
    cases hv : hasVotedOnServer ⟨vr, cr, cw, vw, sw⟩ p (sanitizeIP ip) s <;>
      cases cw <;> cases vw <;> cases sw <;>
        simp [clickToggle, hv, incrementCountS, decrementCountS, getCountS, getCount,
              setCountS, setVoterStateS, syncUpvoteAnalyticsCount, upd]

lemma clickToggle_ui_keeps_target (f : Faults) (p ip : String) (s : Sys) :
    (clickToggle f p (some ip) s).ui.uiVoted p
      = !(hasVotedOnServer f p (sanitizeIP ip) s) := by
  obtain ⟨vr, cr, cw, vw, sw⟩ := f
  cases hv : hasVotedOnServer ⟨vr, cr, cw, vw, sw⟩ p (sanitizeIP ip) s <;>
    cases cw <;> cases vw <;> cases sw <;>
      simp [clickToggle, hv, incrementCountS, decrementCountS, getCountS, getCount,
            setCountS, setVoterStateS, syncUpvoteAnalyticsCount, upd]

lemma clickToggle_countWriteFail_counts (f : Faults) (p ip : String) (s : Sys)
    (hw : f.countWriteFail = true) :
    (clickToggle f p (some ip) s).store.counts = s.store.counts := by
  obtain ⟨vr, cr, cw, vw, sw⟩ := f
  cases cw
  · cases hw
  · cases hv : hasVotedOnServer ⟨vr, cr, true, vw, sw⟩ p (sanitizeIP ip) s <;>
      cases vw <;> cases sw <;>
        simp [clickToggle, hv, incrementCountS, decrementCountS, getCountS, getCount,
              setCountS, setVoterStateS, syncUpvoteAnalyticsCount, upd]

lemma clickToggle_voterWriteFail_voters (f : Faults) (p ip : String) (s : Sys)
    (hw : f.voterWriteFail = true) :
    (clickToggle f p (some ip) s).store.voters = s.store.voters := by
  obtain ⟨vr, cr, cw, vw, sw⟩ := f
  cases vw
  · cases hw
  · cases hv : hasVotedOnServer ⟨vr, cr, cw, true, sw⟩ p (sanitizeIP ip) s <;>
      cases cw <;> cases sw <;>
        simp [clickToggle, hv, incrementCountS, decrementCountS, getCountS, getCount,
              setCountS, setVoterStateS, syncUpvoteAnalyticsCount, upd]

lemma clickToggle_sync_irrelevant (f : Faults) (b1 b2 : Bool) (p : String)
    (ip? : Option String) (s : Sys) :
    ((clickToggle { f with syncWriteFail := b1 } p ip? s).store.counts
        = (clickToggle { f with syncWriteFail := b2 } p ip? s).store.counts)
  ∧ ((clickToggle { f with syncWriteFail := b1 } p ip? s).store.voters
        = (clickToggle { f with syncWriteFail := b2 } p ip? s).store.voters)
  ∧ ((clickToggle { f with syncWriteFail := b1 } p ip? s).ui
        = (clickToggle { f with syncWriteFail := b2 } p ip? s).ui)
  ∧ ((clickToggle { f with syncWriteFail := b1 } p ip? s).cache
        = (clickToggle { f with syncWriteFail := b2 } p ip? s).cache) := by
  cases ip? with
  | none => exact ⟨rfl, rfl, rfl, rfl⟩
  | some ip =>
    obtain ⟨vr, cr, cw, vw, sw⟩ := f
    cases hv : hasVotedOnServer ⟨vr, cr, cw, vw, b1⟩ p (sanitizeIP ip) s <;>
      have hv2 : hasVotedOnServer ⟨vr, cr, cw, vw, b2⟩ p (sanitizeIP ip) s
          = hasVotedOnServer ⟨vr, cr, cw, vw, b1⟩ p (sanitizeIP ip) s := rfl <;>
      cases cw <;> cases vw <;> cases b1 <;> cases b2 <;>
        simp [clickToggle, hv, hv2, incrementCountS, decrementCountS, getCountS, getCount,
              setCountS, setVoterStateS, syncUpvoteAnalyticsCount, upd]

lemma readEvent_writeEvent (ty : EventType) (p : String) (v : Option Int) (st : Store) :
    readEvent ty (writeEvent ty p v st) p = v := by
  cases ty <;> simp [readEvent, writeEvent, upd]

lemma logCustom_ledger (rOk wOk : Bool) (ty : EventType) (p : String) (delta : Int) (st : Store) :
    (logCustomAnalyticsEvent rOk wOk ty p delta st).counts = st.counts
  ∧ (logCustomAnalyticsEvent rOk wOk ty p delta st).voters = st.voters := by
  cases rOk <;> cases wOk <;> cases ty <;>
    simp [logCustomAnalyticsEvent, writeEvent]

lemma logPageVisit_ledger (rOk wOk : Bool) (st : Store) :
    (logPageVisit rOk wOk st).counts = st.counts
  ∧ (logPageVisit rOk wOk st).voters = st.voters := by
  cases rOk <;> cases wOk <;> simp [logPageVisit]

lemma sync_ledger (wOk : Bool) (p : String) (c : Int) (st : Store) :
    (syncUpvoteAnalyticsCount wOk p c st).counts = st.counts
  ∧ (syncUpvoteAnalyticsCount wOk p c st).voters = st.voters := by
  cases wOk <;> simp [syncUpvoteAnalyticsCount]

lemma sanitizeChar_inj (a b : Char) (ha : a ≠ '_') (hb : b ≠ '_')
    (h : (if a = '.' then '_' else a) = (if b = '.' then '_' else b)) : a = b := by
  by_cases h1 : a = '.'
  · by_cases h2 : b = '.'
    · rw [h1, h2]
    · exfalso; rw [if_pos h1, if_neg h2] at h; exact hb h.symm
  · by_cases h2 : b = '.'
    · exfalso; rw [if_neg h1, if_pos h2] at h; exact ha h
    · rw [if_neg h1, if_neg h2] at h; exact h

lemma mapSanitize_inj (l1 l2 : List Char) (h1 : '_' ∉ l1) (h2 : '_' ∉ l2)
    (h : l1.map (fun c => if c = '.' then '_' else c)
        = l2.map (fun c => if c = '.' then '_' else c)) : l1 = l2 := by
  induction l1 generalizing l2 with
  | nil => cases l2 <;> simp_all
  | cons a rest ih =>
    cases l2 with
    | nil => simp_all
    | cons b rest2 =>
      simp only [List.map_cons, List.cons.injEq] at h
      have ha : a ≠ '_' := fun e => h1 (e ▸ List.mem_cons_self a rest)
      have hb : b ≠ '_' := fun e => h2 (e ▸ List.mem_cons_self b rest2)
      have hab := sanitizeChar_inj a b ha hb h.1
      have hrest := ih rest2 (fun m => h1 (List.mem_cons_of_mem a m))
        (fun m => h2 (List.mem_cons_of_mem b m)) h.2
      simp [hab, hrest]

/-!
## Claim theorems
-/

/-- Claim C1: after every successful toggle the reconciler overwrites the
day's `upvotes[subject]` with `max(0, newCount)` — a direct write whose
result does not depend on the previous analytics value — and therefore
after any sequence of `N ≥ 1` successful toggles on one subject from one
identity, the day's `upvotes[subject]` equals the vote ledger's stored
count for that subject, independent of `N`. -/
theorem toggle_resyncs_upvotes_to_count :
    (∀ (p : String) (c : Int) (st : Store),
        (syncUpvoteAnalyticsCount true p c st).upvotes p = some (max 0 c))
  ∧ (∀ (p ip : String) (s : Sys) (n : Nat), 1 ≤ n →
        0 ≤ countOfVal (s.store.counts p) →
        ((goodToggle p ip)^[n] s).store.upvotes p
          = some (countOfVal (((goodToggle p ip)^[n] s).store.counts p))) := by
  constructor
  · intro p c st
    simp [syncUpvoteAnalyticsCount, upd]
  · intro p ip s n hn h0
    obtain ⟨m, rfl⟩ : ∃ m, n = m + 1 := ⟨n - 1, by omega⟩
    rw [Function.iterate_succ_apply']
    obtain ⟨h1, h2, _h3⟩ := goodToggle_step p ip ((goodToggle p ip)^[m] s)
    have hct : 0 ≤ countOfVal (((goodToggle p ip)^[m] s).store.counts p) :=
      goodToggle_iter_count_nonneg p ip s m h0
    have hnn : 0 ≤ (toggleStep (obs p (sanitizeIP ip) ((goodToggle p ip)^[m] s))).1 :=
      toggleStep_nonneg _ hct
    rw [h1, h2, countOfVal_vnum, max_eq_right hnn]

/-- Witness for C1: two successful toggles on "dungeon" from identity
1.2.3.4 starting from the fresh state leave the day's upvotes mirror equal
to the stored count. -/
theorem toggle_resyncs_upvotes_to_count_witness :
    ((goodToggle "dungeon" "1.2.3.4")^[2] sys0).store.upvotes "dungeon"
      = some (countOfVal (((goodToggle "dungeon" "1.2.3.4")^[2] sys0).store.counts "dungeon")) :=
  toggle_resyncs_upvotes_to_count.2 "dungeon" "1.2.3.4" sys0 2 (by decide) (by decide)

set_option maxRecDepth 100000 in
/-- Claim C2 (refuted by the code, a code bug): the click handler never
writes `upvote_events` or `unvote_events` — under every fault profile a
toggle leaves both event-counter families untouched — so after 10 ON/OFF
toggle pairs on "dungeon" from one identity the vote count is back to 0
but both event counters are still absent (0), not 10 as the repository's
own fix specification and its acceptance tests require. -/
theorem toggle_writes_no_event_counters :
    (∀ (f : Faults) (p : String) (ip? : Option String) (s : Sys),
        (clickToggle f p ip? s).store.upvote_events = s.store.upvote_events
      ∧ (clickToggle f p ip? s).store.unvote_events = s.store.unvote_events)
  ∧ ((goodToggle "dungeon" "1.2.3.4")^[20] sys0).store.upvote_events "dungeon" = none
  ∧ ((goodToggle "dungeon" "1.2.3.4")^[20] sys0).store.unvote_events "dungeon" = none
  ∧ ((goodToggle "dungeon" "1.2.3.4")^[20] sys0).store.counts "dungeon" = JVal.vnum 0 :=
  ⟨clickToggle_events_unchanged, by decide, by decide, by decide⟩

/-- Counterexample to claim C3: with only the count read failing, a toggle
on "dungeon" (remote count 3, stale cached count 7, not voted) does not
abort: it writes 8 to the remote count (changing it from its pre-attempt
value 3) and leaves the heart icon in the new voted state instead of
reverting it to the pre-click state. -/
theorem toggle_failure_counterexample :
    sysReadFailDemo.store.counts "dungeon" = JVal.vnum 3
  ∧ sysReadFailDemo.ui.uiVoted "dungeon" = false
  ∧ (clickToggle faultCountRead "dungeon" (some "1.2.3.4") sysReadFailDemo).store.counts "dungeon"
      = JVal.vnum 8
  ∧ (clickToggle faultCountRead "dungeon" (some "1.2.3.4") sysReadFailDemo).ui.uiVoted "dungeon"
      = true := by
  decide

/-- Claim C3 as amended: remote-store failures during a toggle are swallowed
by the helper-level fallbacks rather than aborting the operation: the
optimistic UI change is always kept (the button ends in the new target
state), a failed count write leaves the remote count paths unchanged (the
new count goes only to the local cache), a failed voter write leaves the
remote voter paths unchanged, and only an unavailable identity
(`getUserIP` returning null) aborts the toggle with no state change. -/
theorem toggle_failure_fallback_behavior (f : Faults) (p ip : String) (s : Sys) :
    ((clickToggle f p (some ip) s).ui.uiVoted p
        = !(hasVotedOnServer f p (sanitizeIP ip) s))
  ∧ (f.countWriteFail = true →
        (clickToggle f p (some ip) s).store.counts = s.store.counts)
  ∧ (f.voterWriteFail = true →
        (clickToggle f p (some ip) s).store.voters = s.store.voters)
  ∧ (∀ s2 : Sys, clickToggle f p none s2 = s2) :=
  ⟨clickToggle_ui_keeps_target f p ip s,
   clickToggle_countWriteFail_counts f p ip s,
   clickToggle_voterWriteFail_voters f p ip s,
   fun _ => rfl⟩

/-- Witness for the amended C3: with only the count write failing, a toggle
leaves the remote count paths unchanged. -/
theorem toggle_failure_fallback_behavior_witness :
    (clickToggle faultCountWrite "dungeon" (some "1.2.3.4") sys0).store.counts
      = sys0.store.counts :=
  (toggle_failure_fallback_behavior faultCountWrite "dungeon" "1.2.3.4" sys0).2.1 rfl

/-- Claim C4: an upvote writes `count + 1` and a retraction writes
`max(0, count - 1)` (so a retraction at 0 writes 0), and consequently,
for every subject and every sequence of toggle operations (any identities,
any remote fault profiles), the stored vote count — and the cached one —
never becomes negative. -/
theorem vote_count_never_negative :
    (∀ (f : Faults) (p : String) (s : Sys),
        (incrementCountS f p s).2 = getCountS f p s + 1)
  ∧ (∀ (f : Faults) (p : String) (s : Sys),
        (decrementCountS f p s).2 = max 0 (getCountS f p s - 1))
  ∧ (∀ (p : String) (ops : List (Faults × Option String)) (s : Sys), countInv p s →
        countInv p (ops.foldl (fun t op => clickToggle op.1 p op.2 t) s)) := by
  refine ⟨fun _ _ _ => rfl, fun _ _ _ => rfl, ?_⟩
  intro p ops
  induction ops with
  | nil => exact fun s h => h
  | cons op rest ih =>
    intro s h
    exact ih (clickToggle op.1 p op.2 s) (clickToggle_countInv op.1 p op.2 s h)

/-- Witness for C4: after a faulty toggle followed by a successful one on
the fresh state, both the stored and the cached count of "dungeon" are
non-negative. -/
theorem vote_count_never_negative_witness :
    countInv "dungeon"
      ([(faultCountRead, some "1.2.3.4"), (noFaults, some "1.2.3.4")].foldl
        (fun t op => clickToggle op.1 "dungeon" op.2 t) sys0) :=
  vote_count_never_negative.2.2 "dungeon"
    [(faultCountRead, some "1.2.3.4"), (noFaults, some "1.2.3.4")] sys0 (by decide)

/-- Counterexample to claim C5: from the starting state (count = 0, voter
boolean = true) two consecutive successful toggles by that identity leave
the count at 1, not at its starting value 0. -/
theorem toggle_pairs_counterexample :
    countOfVal (sysZeroVoted.store.counts "dungeon") = 0
  ∧ votedOnS sysZeroVoted "dungeon" (sanitizeIP "1.2.3.4") = true
  ∧ countOfVal (((goodToggle "dungeon" "1.2.3.4")^[2] sysZeroVoted).store.counts "dungeon") = 1 := by
  decide

/-- Claim C5 as amended: for any subject, identity and starting state with a
non-negative count in which the identity's observed voter boolean is true
only if the count is at least 1, an even number of consecutive successful
toggles by that identity returns both the stored count and that identity's
observed voter boolean to their starting values. -/
theorem toggle_pairs_restore_state (p ip : String) (s : Sys) (n : Nat)
    (h0 : 0 ≤ countOfVal (s.store.counts p))
    (h1 : votedOnS s p (sanitizeIP ip) = true → 1 ≤ countOfVal (s.store.counts p)) :
    countOfVal (((goodToggle p ip)^[2 * n] s).store.counts p) = countOfVal (s.store.counts p)
  ∧ votedOnS ((goodToggle p ip)^[2 * n] s) p (sanitizeIP ip) = votedOnS s p (sanitizeIP ip) := by
  have h := obs_goodToggle_iter p ip s (2 * n)
  rw [toggleStep_iter_pairs (obs p (sanitizeIP ip) s) h0 h1 n] at h
  exact ⟨congrArg Prod.fst h, congrArg Prod.snd h⟩

/-- Witness for the amended C5: six further toggles after one successful
toggle on the fresh state bring the count of "dungeon" back to where the
first toggle left it. -/
theorem toggle_pairs_restore_state_witness :
    countOfVal (((goodToggle "dungeon" "1.2.3.4")^[2 * 3]
        (goodToggle "dungeon" "1.2.3.4" sys0)).store.counts "dungeon")
      = countOfVal ((goodToggle "dungeon" "1.2.3.4" sys0).store.counts "dungeon") :=
  (toggle_pairs_restore_state "dungeon" "1.2.3.4"
    (goodToggle "dungeon" "1.2.3.4" sys0) 3 (by decide) (by decide)).1

/-- Counterexample to claim C6: the reset operation does not write zero to
the `upvote_events` path of the current date — on a store whose
`upvote_events/dungeon` is 5, the reset leaves it at 5, not 0. -/
theorem reset_counterexample :
    storeEvents5.upvote_events "dungeon" = some 5
  ∧ (resetDemoDataIfRequested (some "true") storeEvents5).upvote_events "dungeon" = some 5
  ∧ (resetDemoDataIfRequested (some "true") storeEvents5).upvote_events "dungeon" ≠ some 0 := by
  decide

/-- Claim C6 as amended: the reset operation runs only when the explicit
`resetDemo=true` query parameter is supplied (an opt-in gate, not an
interactive confirmation step); when it runs it writes zero to the current
date's `total_visits` and, for every known project, to `project_views`,
`upvotes`, `session_duration` and the per-subject vote count, and it sets
every existing voter entry to `false` rather than deleting it; it leaves
the `upvote_events` and `unvote_events` families untouched (they do not
exist in this implementation). -/
theorem reset_today_behavior :
    (∀ (v : Option String) (st : Store), v ≠ some "true" → resetDemoDataIfRequested v st = st)
  ∧ (∀ st : Store, (resetDemoDataIfRequested (some "true") st).total_visits = some 0)
  ∧ (∀ (st : Store) (p : String), p ∈ PROJECTS →
        (resetDemoDataIfRequested (some "true") st).project_views p = some 0
      ∧ (resetDemoDataIfRequested (some "true") st).upvotes p = some 0
      ∧ (resetDemoDataIfRequested (some "true") st).session_duration p = some 0
      ∧ (resetDemoDataIfRequested (some "true") st).counts p = JVal.vnum 0
      ∧ (resetDemoDataIfRequested (some "true") st).voters p = votersAllFalse (st.voters p))
  ∧ (∀ st : Store,
        (resetDemoDataIfRequested (some "true") st).upvote_events = st.upvote_events
      ∧ (resetDemoDataIfRequested (some "true") st).unvote_events = st.unvote_events) := by
  refine ⟨?_, ?_, ?_, ?_⟩
  · intro v st hv
    simp [resetDemoDataIfRequested, hv]
  · intro st
    simp [resetDemoDataIfRequested]
  · intro st p hp
    simp [resetDemoDataIfRequested, updAll_apply, foldVoters_apply, hp]
  · intro st
    exact ⟨rfl, rfl⟩

/-- Witness for the amended C6: on the counterexample store, the reset
zeroes "dungeon"'s per-day view counter. -/
theorem reset_today_behavior_witness :
    (resetDemoDataIfRequested (some "true") storeEvents5).project_views "dungeon" = some 0 :=
  (reset_today_behavior.2.2.1 storeEvents5 "dungeon" (by decide)).1

/-- Claim C7: assuming every value read from the analytics store is absent
or a non-negative integer, every value the analytics layer writes is a
non-negative integer — `logCustomAnalyticsEvent` writes
`max(0, current + delta)`, `logPageVisit` writes `current + 1` with
`current ≥ 0`, and the upvote resynchronization writes `max(0, count)`;
none of the three functions performs any division. -/
theorem analytics_values_nonneg :
    (∀ (rOk wOk : Bool) (ty : EventType) (p : String) (delta : Int) (st : Store),
        nn (readEvent ty st p) →
        nn (readEvent ty (logCustomAnalyticsEvent rOk wOk ty p delta st) p))
  ∧ (∀ (rOk wOk : Bool) (st : Store),
        nn st.total_visits → nn (logPageVisit rOk wOk st).total_visits)
  ∧ (∀ (wOk : Bool) (p : String) (c : Int) (st : Store),
        nn (st.upvotes p) → nn ((syncUpvoteAnalyticsCount wOk p c st).upvotes p)) := by
  refine ⟨?_, ?_, ?_⟩
  · intro rOk wOk ty p delta st h
    cases rOk
    · simpa [logCustomAnalyticsEvent] using h
    · cases wOk
      · simpa [logCustomAnalyticsEvent] using h
      · simp [logCustomAnalyticsEvent, readEvent_writeEvent, nn]
  · intro rOk wOk st h
    cases rOk
    · simpa [logPageVisit] using h
    · cases wOk
      · simpa [logPageVisit] using h
      · unfold nn at h ⊢
        simp [logPageVisit]
        omega
  · intro wOk p c st h
    cases wOk
    · simpa [syncUpvoteAnalyticsCount] using h
    · simp [syncUpvoteAnalyticsCount, upd, nn]

/-- Witness for C7: a successful page-visit log on the fresh store leaves a
non-negative total-visits value. -/
theorem analytics_values_nonneg_witness :
    nn (logPageVisit true true sys0.store).total_visits :=
  analytics_values_nonneg.2.1 true true sys0.store (by decide)

/-- Claim C8: under every success/failure combination, the analytics
functions (`logCustomAnalyticsEvent`, `syncUpvoteAnalyticsCount`,
`logPageVisit`) leave every vote-ledger path (`votes/{subject}/count` and
`votes/{subject}/voters/{identity}`) unchanged, and the outcome of the vote
action — ledger, UI and local cache — is identical whether the analytics
resynchronization write succeeds or fails.  In the embedding each of these
functions is total (the source wraps every fallible operation in a
`try`/`catch` that logs and swallows), so no failure propagates an
exception to the caller. -/
theorem analytics_never_touches_ledger :
    (∀ (rOk wOk : Bool) (ty : EventType) (p : String) (delta : Int) (st : Store),
        (logCustomAnalyticsEvent rOk wOk ty p delta st).counts = st.counts
      ∧ (logCustomAnalyticsEvent rOk wOk ty p delta st).voters = st.voters)
  ∧ (∀ (rOk wOk : Bool) (st : Store),
        (logPageVisit rOk wOk st).counts = st.counts
      ∧ (logPageVisit rOk wOk st).voters = st.voters)
  ∧ (∀ (wOk : Bool) (p : String) (c : Int) (st : Store),
        (syncUpvoteAnalyticsCount wOk p c st).counts = st.counts
      ∧ (syncUpvoteAnalyticsCount wOk p c st).voters = st.voters)
  ∧ (∀ (f : Faults) (b1 b2 : Bool) (p : String) (ip? : Option String) (s : Sys),
        ((clickToggle { f with syncWriteFail := b1 } p ip? s).store.counts
            = (clickToggle { f with syncWriteFail := b2 } p ip? s).store.counts)
      ∧ ((clickToggle { f with syncWriteFail := b1 } p ip? s).store.voters
            = (clickToggle { f with syncWriteFail := b2 } p ip? s).store.voters)
      ∧ ((clickToggle { f with syncWriteFail := b1 } p ip? s).ui
            = (clickToggle { f with syncWriteFail := b2 } p ip? s).ui)
      ∧ ((clickToggle { f with syncWriteFail := b1 } p ip? s).cache
            = (clickToggle { f with syncWriteFail := b2 } p ip? s).cache)) :=
  ⟨logCustom_ledger, logPageVisit_ledger, sync_ledger, clickToggle_sync_irrelevant⟩

/-- Counterexample to claim C9: `sanitizeIP` substitutes only periods — on
the input "1$2" the forbidden character `$` survives unreplaced, so the
function does not substitute every character forbidden by the store's key
syntax. -/
theorem sanitizeIP_counterexample :
    sanitizeIP "1$2" = "1$2" ∧ ¬ storeSafe (sanitizeIP "1$2") := by
  decide

/-- Claim C9 as amended: the identity-sanitization function is deterministic
(equal inputs yield equal outputs), substitutes every period — the only
forbidden key character occurring in dotted-decimal IPv4 address strings —
with an underscore so that its output never contains a period, and is
injective on underscore-free inputs, which include all dotted-decimal IPv4
address strings; it does not substitute the other forbidden characters
`$ # [ ] /`. -/
theorem sanitizeIP_deterministic_injective :
    (∀ a b : String, a = b → sanitizeIP a = sanitizeIP b)
  ∧ (∀ s : String, '.' ∉ (sanitizeIP s).data)
  ∧ (∀ s t : String, underscoreFree s → underscoreFree t →
      sanitizeIP s = sanitizeIP t → s = t) := by
  refine ⟨fun a b h => by rw [h], ?_, ?_⟩
  · intro s hmem
    simp only [sanitizeIP] at hmem
    simp only [List.mem_map] at hmem
    obtain ⟨c, _, hc⟩ := hmem
    by_cases h : c = '.' <;> simp [h] at hc
  · intro s t hs ht h
    have hd : (sanitizeIP s).data = (sanitizeIP t).data := by rw [h]
    simp only [sanitizeIP] at hd
    exact String.ext (mapSanitize_inj s.data t.data hs ht hd)

/-- Witness for the amended C9: injectivity applied at the IPv4 string
10.0.0.1 (underscore-free), with both hypotheses discharged concretely. -/
theorem sanitizeIP_deterministic_injective_witness :
    ("10.0.0.1" : String) = "10.0.0.1" :=
  sanitizeIP_deterministic_injective.2.2 "10.0.0.1" "10.0.0.1" (by decide) (by decide) rfl

/-- Claim C10: the count-read operation is total over both historical
storage schemas: it returns the object's `count` field (defaulting to 0)
when the stored value is an object, the value itself when it is a number
(including 0 via the `|| 0` falsy default), 0 when the path is absent
(null), and the locally cached count (defaulting to 0) when the remote
read fails; being a total function into `Int`, it never throws. -/
theorem getCount_total_cases :
    (∀ (n : Int) (c : Option Int), getCount true (JVal.vnum n) c = n)
  ∧ (∀ (n : Int) (c : Option Int), getCount true (JVal.vobj (some n)) c = n)
  ∧ (∀ c : Option Int, getCount true (JVal.vobj none) c = 0)
  ∧ (∀ c : Option Int, getCount true JVal.vnull c = 0)
  ∧ (∀ (v : JVal) (n : Int), getCount false v (some n) = n)
  ∧ (∀ v : JVal, getCount false v none = 0) := by
  refine ⟨?_, ?_, ?_, ?_, ?_, ?_⟩
  · intro n c; simp [getCount, countOfVal, orZero_self]
  · intro n c; simp [getCount, countOfVal, orZero_self]
  · intro c; simp [getCount, countOfVal]
  · intro c; simp [getCount, countOfVal]
  · intro v n; simp [getCount]
  · intro v; simp [getCount]
